import Mathlib

/-!
Verification of the persons repository's HTTP retry client, auth context and
generic form validator.  Each definition is a shallow embedding of the
corresponding TypeScript function; JavaScript records are modelled as
association lists, JavaScript `undefined` as `Option.none`, and the falsiness
of the empty string is modelled explicitly where the source relies on it.
-/

namespace Persons

/-- JavaScript `v || d` on an optional string: `undefined` and the empty
string are falsy, every other string is truthy. -/
def jsOrStr (v : Option String) (d : String) : String :=
  match v with
  | some s => if s = "" then d else s
  | none => d

/-- JavaScript truthiness of an optional string (`undefined` and `""` falsy). -/
def jsTruthyOpt (v : Option String) : Bool :=
  match v with
  | some s => s ≠ ""
  | none => false

/-- Substring test: `needle` occurs contiguously inside `hay`
(models JavaScript `hay.includes(needle)`). -/
def isSubstring (needle hay : String) : Bool :=
  (List.range (hay.toList.length + 1)).any
    (fun i => needle.toList.isPrefixOf (hay.toList.drop i))

/-- Set a key in a JavaScript-object-like record (`obj[k] = v`):
overwrite the existing entry for the key, else append it. -/
def recordSet (m : List (String × String)) (k v : String) : List (String × String) :=
  if m.any (fun p => p.1 = k) then
    m.map (fun p => if p.1 = k then (k, v) else p)
  else
    m ++ [(k, v)]

/-- Object spread `\x7b ...a, ...b \x7d`: entries of `b` override entries of `a`. -/
def recordMerge (a b : List (String × String)) : List (String × String) :=
  b.foldl (fun m p => recordSet m p.1 p.2) a

/-- Read a key from a JavaScript-object-like record. -/
def recordGet (m : List (String × String)) (k : String) : Option String :=
  (m.find? (fun p => p.1 = k)).map (fun p => p.2)

namespace Api

/-- `RetryConfig` from `types/ApiResponse.ts`.  Delays are modelled as
rationals (JavaScript numbers; every value the program uses is rational). -/
structure RetryConfig where
  maxRetries : ℕ
  baseDelay : ℚ
  maxDelay : ℚ
  backoffMultiplier : ℚ
deriving Repr, DecidableEq

/-- `DEFAULT_RETRY_CONFIG` from the API client module. -/
def DEFAULT_RETRY_CONFIG : RetryConfig :=
  { maxRetries := 3, baseDelay := 1000, maxDelay := 10000, backoffMultiplier := 2 }

/-- `calculateRetryDelay(attempt, config)`:
`min(config.baseDelay * config.backoffMultiplier ** (attempt - 1), config.maxDelay)`.
The exponent is an integer because `attempt - 1` may be negative in JavaScript;
every call site passes `attempt ≥ 1`. -/
def calculateRetryDelay (attempt : ℕ) (config : RetryConfig) : ℚ :=
  min (config.baseDelay * config.backoffMultiplier ^ ((attempt : ℤ) - 1)) config.maxDelay

/-- The runtime shape of the structured error thrown by `parseResponse`
(`ApiErrorResponse`).  The wall-clock `timestamp` field is not modelled.
Note the thrown object literal carries no `name` and no `status` property. -/
structure ApiErrorResponse where
  success : Bool
  message : String
  errors : List String
  errorCode : String
deriving Repr, DecidableEq

/-- A parsed JSON body in the envelope shape the client reads
(`success`/`data`/`message`/`errors`/`code`); absent JSON keys are `none`.
The payload is modelled opaquely as a string. -/
structure ApiResponse where
  success : Bool
  data : Option String
  message : Option String
  errors : Option (List String)
  code : Option String
deriving Repr, DecidableEq

/-- A value caught by `retryRequest`'s catch clause: either the
`ApiErrorResponse` literal thrown by `parseResponse`, or a low-level
rejection (fetch `TypeError`, abort, JSON `SyntaxError`, ...) carrying the
JavaScript `name` and `message` properties. -/
inductive RequestError where
  | api (e : ApiErrorResponse)
  | js (name : String) (message : String)
deriving Repr, DecidableEq

/-- The `name` property of a caught error: the object thrown by
`parseResponse` has none (reading it yields `undefined`). -/
def RequestError.nameProp : RequestError → Option String
  | .api _ => none
  | .js n _ => some n

/-- The `status` property of a caught error: neither the `ApiErrorResponse`
literal built by `parseResponse` nor a low-level rejection carries one, so
reading it always yields `undefined`. -/
def RequestError.statusProp : RequestError → Option ℕ
  | .api _ => none
  | .js _ _ => none

/-- The `message` property of a caught error. -/
def RequestError.messageProp : RequestError → String
  | .api e => e.message
  | .js _ m => m

/-- `isRetryableError(error)`.  `navOnline` is `navigator.onLine`.
A comparison against an `undefined` status (`error.status >= 500`,
`error.status === 429`) is false in JavaScript, modelled by the `none`
branches. -/
def isRetryableError (navOnline : Bool) (error : RequestError) : Bool :=
  if !navOnline then true
  else if error.nameProp = some "TimeoutError" then true
  else if (match error.statusProp with
           | some s => decide (500 ≤ s ∧ s < 600)
           | none => false) then true
  else if error.statusProp = some 429 then true
  else if error.nameProp = some "TypeError"
      && isSubstring "fetch" error.messageProp then true
  else false

/-- An HTTP `Response` as far as `parseResponse` inspects it:
status, status text, whether the content type indicates JSON, the parsed
JSON body when it parses (`none` models a body that fails to parse), and
the raw text body. -/
structure Response where
  status : ℕ
  statusText : String
  contentTypeJson : Bool
  jsonBody : Option ApiResponse
  textBody : String
deriving Repr, DecidableEq

/-- `parseResponse(response)`.  On a non-2xx status it throws the structured
`ApiErrorResponse`; on 2xx it returns the JSON body (a JSON parse failure on
the success path propagates as a low-level `SyntaxError` rejection), or wraps
the raw text in the standard envelope when the content type is not JSON. -/
def parseResponse (r : Response) : Except RequestError ApiResponse :=
  if 200 ≤ r.status ∧ r.status ≤ 299 then
    if r.contentTypeJson then
      match r.jsonBody with
      | some b => Except.ok b
      | none => Except.error (RequestError.js "SyntaxError" "Unexpected token in JSON")
    else
      Except.ok { success := true, data := some r.textBody, message := none,
                  errors := none, code := none }
  else
    let errorData : ApiResponse :=
      if r.contentTypeJson then
        match r.jsonBody with
        | some b => b
        | none => { success := false, data := none,
                    message := some "Unknown error occurred", errors := none, code := none }
      else
        { success := false, data := none, message := some r.textBody,
          errors := none, code := none }
    Except.error (RequestError.api
      { success := false
        message := jsOrStr errorData.message
          ("HTTP " ++ toString r.status ++ ": " ++ r.statusText)
        errors := (match errorData.errors with
          | some l => l
          | none => [jsOrStr errorData.message "Unknown error"])
        errorCode := jsOrStr errorData.code ("HTTP_" ++ toString r.status) })

/-- The per-call configuration record `\x7b timeout, retries, retryDelay \x7d`
built inside `apiClient` and handed to `retryRequest` (all three keys
present). -/
structure ResolvedRequestConfig where
  timeout : ℚ
  retries : ℕ
  retryDelay : ℚ
deriving Repr, DecidableEq

/-- `DEFAULT_CONFIG` from the API client module. -/
def DEFAULT_CONFIG : ResolvedRequestConfig :=
  { timeout := 30000, retries := 3, retryDelay := 1000 }

/-- `\x7b ...DEFAULT_RETRY_CONFIG, ...config \x7d` inside `retryRequest`:
`config`'s keys are `timeout`/`retries`/`retryDelay`, disjoint from
`RetryConfig`'s keys `maxRetries`/`baseDelay`/`maxDelay`/`backoffMultiplier`,
so the spread leaves every `RetryConfig` field at its default value. -/
def mergeRetryConfig (_config : ResolvedRequestConfig) : RetryConfig :=
  DEFAULT_RETRY_CONFIG

/-- The try-block of `retryRequest`: invoke `requestFn` (the transport at the
given attempt number) and parse its response; a rejection of either step is
the caught error. -/
def attemptOutcome (transport : ℕ → Except RequestError Response) (attempt : ℕ) :
    Except RequestError ApiResponse :=
  match transport attempt with
  | Except.error e => Except.error e
  | Except.ok resp => parseResponse resp

/-- `retryRequest(requestFn, config, attempt)`.  The transport maps each
attempt number (the n-th invocation of `requestFn`) to its outcome.  The
result pairs the final outcome with the list of back-off delays awaited
before each retry, in order. -/
def retryRequest (navOnline : Bool) (transport : ℕ → Except RequestError Response)
    (config : ResolvedRequestConfig) (attempt : ℕ) :
    Except RequestError ApiResponse × List ℚ :=
  match attemptOutcome transport attempt with
  | Except.ok v => (Except.ok v, [])
  | Except.error e =>
    let retryConfig := mergeRetryConfig config
    if h : attempt < retryConfig.maxRetries ∧ isRetryableError navOnline e then
      let delay := calculateRetryDelay attempt retryConfig
      let rest := retryRequest navOnline transport config (attempt + 1)
      (rest.1, delay :: rest.2)
    else
      (Except.error e, [])
termination_by (mergeRetryConfig config).maxRetries - attempt
decreasing_by
  simp only [retryConfig] at h
  omega

/-- The caller-supplied options of `apiClient` (`RequestInit & ApiRequestConfig`):
optional `timeout`/`retries`/`retryDelay` and optional header overrides; the
remaining fetch options do not influence the modelled behaviour. -/
structure ClientOptions where
  timeout : Option ℚ
  retries : Option ℕ
  retryDelay : Option ℚ
  headers : Option (List (String × String))
deriving Repr, DecidableEq

/-- The destructuring defaults at the top of `apiClient`:
`timeout = DEFAULT_CONFIG.timeout`, `retries = DEFAULT_CONFIG.retries`,
`retryDelay = DEFAULT_CONFIG.retryDelay` apply when the key is absent. -/
def resolveConfig (options : ClientOptions) : ResolvedRequestConfig :=
  { timeout := options.timeout.getD DEFAULT_CONFIG.timeout
    retries := options.retries.getD DEFAULT_CONFIG.retries
    retryDelay := options.retryDelay.getD DEFAULT_CONFIG.retryDelay }

/-- `apiClient(url, options)`.  `statusOnline` is the module-scoped
`networkStatus.isOnline` checked before the call; `navOnline` is
`navigator.onLine` read by `isRetryableError`.  The construction of
`requestFn` from url, fetch options, headers and timeout is abstracted into
`transport`, the attempt-indexed outcome of invoking it. -/
def apiClient (statusOnline navOnline : Bool)
    (transport : ℕ → Except RequestError Response) (options : ClientOptions) :
    Except RequestError ApiResponse × List ℚ :=
  let cfg := resolveConfig options
  if !statusOnline then
    (Except.error (RequestError.js "Error" "No internet connection"), [])
  else if 0 < cfg.retries then
    retryRequest navOnline transport cfg 1
  else
    (attemptOutcome transport 1, [])

/-- `createHeaders(customHeaders)`: starts from the default
`Content-Type: application/json`, spreads the custom headers over it, then
adds `Authorization: Bearer <token>` when a token is stored. -/
def createHeaders (customHeaders : List (String × String)) (token : Option String) :
    List (String × String) :=
  let headers := recordMerge [("Content-Type", "application/json")] customHeaders
  match token with
  | some t => recordSet headers "Authorization" ("Bearer " ++ t)
  | none => headers

/-- The `headers` entry of the options `apiUpload` passes to `apiClient`:
`\x7b method, body: formData, headers: \x7b\x7d, ...config \x7d`, so the empty
override stands unless the caller's config carries its own `headers` key. -/
def apiUploadOptionsHeaders (config : ClientOptions) : List (String × String) :=
  match config.headers with
  | some h => h
  | none => []

/-- The request headers an `apiUpload` call hands to fetch:
`createHeaders` applied to the header entry of the options built by
`apiUpload`. -/
def apiUploadHeaders (config : ClientOptions) (token : Option String) :
    List (String × String) :=
  createHeaders (apiUploadOptionsHeaders config) token

/-- The response used in the C6 witness: an HTTP 404 with a plain-text body. -/
def resp404 : Response :=
  { status := 404, statusText := "Not Found", contentTypeJson := false,
    jsonBody := none, textBody := "Not Found" }

/-- A transport that answers HTTP 404 on every attempt. -/
def transport404 (_n : ℕ) : Except RequestError Response :=
  Except.ok resp404

/-- The simulated 503 response of the C1 scenario. -/
def resp503 : Response :=
  { status := 503, statusText := "Service Unavailable", contentTypeJson := false,
    jsonBody := none, textBody := "Service Unavailable" }

/-- The simulated success response of the C1 scenario. -/
def respOk200 : Response :=
  { status := 200, statusText := "OK", contentTypeJson := true,
    jsonBody := some { success := true, data := some "payload", message := none,
                       errors := none, code := none },
    textBody := "" }

/-- The C1 scenario transport: HTTP 503 on the first two attempts, success
from the third attempt on. -/
def transport503 (n : ℕ) : Except RequestError Response :=
  if n ≤ 2 then Except.ok resp503 else Except.ok respOk200

end Api

namespace Auth

/-- `User` from `types/User.ts`; the `Date` fields are modelled as ISO
strings. -/
structure User where
  id : ℤ
  username : String
  email : String
  password : String
  photo : Option String
  createdAt : String
  lastLoginAt : Option String
deriving Repr, DecidableEq

/-- The runtime shape of an auth response body as the context reads it.
The `errors` list is read by the context's failure handling (the backend's
validation responses carry it even though the `AuthResponse` interface does
not declare it); an absent key is `none`. -/
structure AuthResponse where
  success : Bool
  user : Option User
  message : Option String
  token : Option String
  errors : Option (List String)
deriving Repr, DecidableEq

/-- The state the auth provider holds: current user, loading flag and last
error message. -/
structure AuthState where
  user : Option User
  isLoading : Bool
  error : Option String
deriving Repr, DecidableEq

/-- The outcome of an `api.login` / `api.register` call as the context sees
it: the promise resolves with a `\x7b data, error \x7d` record, or rejects. -/
inductive ApiCallOutcome where
  | resolved (data : Option AuthResponse) (error : Option String)
  | rejected
deriving Repr, DecidableEq

/-- `handleAuthSuccess(authResponse)`: store the user and clear the error
only when a user is present; always clear the loading flag. -/
def handleAuthSuccess (s : AuthState) (authResponse : AuthResponse) : AuthState :=
  match authResponse.user with
  | some u => { s with user := some u, error := none, isLoading := false }
  | none => { s with isLoading := false }

/-- `handleAuthFailure(errorMessage)`: clear the user, store the message,
clear the loading flag. -/
def handleAuthFailure (s : AuthState) (errorMessage : String) : AuthState :=
  { s with user := none, error := some errorMessage, isLoading := false }

/-- JavaScript `data.errors && data.errors.length > 0` (an absent key is
`undefined`, hence falsy; an array — even empty — is truthy). -/
def jsErrorsNonEmpty (errors : Option (List String)) : Bool :=
  match errors with
  | some l => decide (0 < l.length)
  | none => false

/-- `login(loginData)` of the auth context.  The state transformation starts
by setting the loading flag and clearing the error, then dispatches on the
API call's outcome exactly as the source's `if (error || !data)` /
`data.success` / `data.errors` chain does.  Returns the new state and the
boolean result. -/
def login (s : AuthState) (outcome : ApiCallOutcome) : AuthState × Bool :=
  let s1 : AuthState := { s with isLoading := true, error := none }
  match outcome with
  | ApiCallOutcome.rejected => (handleAuthFailure s1 "Network error occurred", false)
  | ApiCallOutcome.resolved data err =>
    match data with
    | none => (handleAuthFailure s1 (jsOrStr err "Login failed"), false)
    | some d =>
      if jsTruthyOpt err = true then
        (handleAuthFailure s1 (jsOrStr err "Login failed"), false)
      else if d.success = true then
        (handleAuthSuccess s1 d, true)
      else if jsErrorsNonEmpty d.errors = true then
        (handleAuthFailure s1 (String.intercalate ", " (d.errors.getD [])), false)
      else
        (handleAuthFailure s1 (jsOrStr d.message "Login failed"), false)

/-- `register(registerData)` of the auth context: identical to `login` except
for the generic message. -/
def register (s : AuthState) (outcome : ApiCallOutcome) : AuthState × Bool :=
  let s1 : AuthState := { s with isLoading := true, error := none }
  match outcome with
  | ApiCallOutcome.rejected => (handleAuthFailure s1 "Network error occurred", false)
  | ApiCallOutcome.resolved data err =>
    match data with
    | none => (handleAuthFailure s1 (jsOrStr err "Registration failed"), false)
    | some d =>
      if jsTruthyOpt err = true then
        (handleAuthFailure s1 (jsOrStr err "Registration failed"), false)
      else if d.success = true then
        (handleAuthSuccess s1 d, true)
      else if jsErrorsNonEmpty d.errors = true then
        (handleAuthFailure s1 (String.intercalate ", " (d.errors.getD [])), false)
      else
        (handleAuthFailure s1 (jsOrStr d.message "Registration failed"), false)

/-- `logout()` of the auth context: set loading and clear the error, await
the API call, and clear the user and loading flag on the normal path and in
the catch clause alike (`apiRejects` says which path ran). -/
def logout (s : AuthState) (apiRejects : Bool) : AuthState :=
  let s1 : AuthState := { s with isLoading := true, error := none }
  if apiRejects then
    { s1 with user := none, isLoading := false }
  else
    { s1 with user := none, isLoading := false }

/-- Concrete user for the C7 witness. -/
def sampleUser : User :=
  { id := 1, username := "u", email := "e", password := "p", photo := none,
    createdAt := "2024-01-01", lastLoginAt := none }

/-- Concrete successful auth response body for the C7 witness. -/
def sampleSuccessResponse : AuthResponse :=
  { success := true, user := some sampleUser, message := none, token := none,
    errors := none }

/-- Concrete starting state for the C7 witness. -/
def sampleState : AuthState :=
  { user := none, isLoading := false, error := some "stale" }

end Auth

namespace Form

/-- The `type` union of a field descriptor. -/
inductive InputType where
  | text
  | number
  | tel
  | email
  | password
  | file
deriving Repr, DecidableEq

/-- A field descriptor (`FormField` with the `AuthFormField` extension
fields).  Optional properties are `Option`; `required` is a `Bool` because
the validator only ever tests its truthiness (an absent flag and `false`
behave identically), while `needsConfirmation` keeps its presence bit
because the validator tests `'needsConfirmation' in field` first.  The
numeric bounds are modelled as integers, matching the integral result of
`parseInt`. -/
structure FormField where
  name : String
  label : String
  type : InputType
  placeholder : String
  required : Bool
  min : Option ℤ
  max : Option ℤ
  accept : Option String
  needsConfirmation : Option Bool
  confirmAgainst : Option String
  customValidationMessage : Option String
deriving Repr, DecidableEq

/-- `formData[field.name] || ''`: the stored value of a field, the empty
string when absent (or stored falsy). -/
def getValue (data : List (String × String)) (name : String) : String :=
  jsOrStr (data.lookup name) ""

/-- JavaScript `String.prototype.trim`: strip leading and trailing
whitespace. -/
def jsTrim (s : String) : String :=
  String.mk (((s.toList.dropWhile Char.isWhitespace).reverse.dropWhile
    Char.isWhitespace).reverse)

/-- The numeric value of a hexadecimal digit character, if any. -/
def hexDigitVal (c : Char) : Option ℕ :=
  if c.isDigit then some (c.toNat - 48)
  else if 97 ≤ c.toNat ∧ c.toNat ≤ 102 then some (c.toNat - 87)
  else if 65 ≤ c.toNat ∧ c.toNat ≤ 70 then some (c.toNat - 55)
  else none

/-- The value of a digit character in the given base, if it is one. -/
def digitVal (base : ℕ) (c : Char) : Option ℕ :=
  match hexDigitVal c with
  | some v => if v < base then some v else none
  | none => none

/-- Read the longest digit prefix in the given base; `none` when there is no
digit at all. -/
def parseDigits (base : ℕ) (cs : List Char) : Option ℕ :=
  let ds := cs.takeWhile (fun c => (digitVal base c).isSome)
  if ds.isEmpty then none
  else some (ds.foldl (fun acc c => acc * base + (digitVal base c).getD 0) 0)

/-- JavaScript `parseInt(value)` (no radix argument): skip leading
whitespace, read an optional sign, detect a `0x`/`0X` prefix for base 16,
then read the longest digit prefix, ignoring any trailing characters;
`NaN` (here `none`) when no digit is found. -/
def jsParseInt (s : String) : Option ℤ :=
  let cs := s.toList.dropWhile Char.isWhitespace
  let signed : ℤ × List Char :=
    match cs with
    | '-' :: rest => (-1, rest)
    | '+' :: rest => (1, rest)
    | _ => (1, cs)
  let digits : Option ℕ :=
    match signed.2 with
    | '0' :: c :: rest =>
      if c = 'x' ∨ c = 'X' then parseDigits 16 rest else parseDigits 10 signed.2
    | _ => parseDigits 10 signed.2
  digits.map (fun n => signed.1 * n)

/-- The required-field rule of `validateForm`:
`if (field.required && !value.trim()) newErrors[field.name] = label + ' is required'`. -/
def requiredCheck (f : FormField) (value : String) : Option String :=
  if f.required = true ∧ jsTrim value = "" then
    some (f.label ++ " is required")
  else
    none

/-- The numeric rule of `validateForm`: for a number-typed field with a
truthy (non-empty) value, a failed parse, a value below `min` or above `max`
each overwrite the field's error; otherwise the previously recorded error
(if any) stands. -/
def numberCheck (f : FormField) (value : String) (prev : Option String) : Option String :=
  if f.type = InputType.number ∧ value ≠ "" then
    match jsParseInt value with
    | none => some (f.label ++ " must be a valid number")
    | some n =>
      let maxCheck : Option String :=
        match f.max with
        | some hi =>
          if hi < n then some (f.label ++ " must be at most " ++ toString hi)
          else prev
        | none => prev
      match f.min with
      | some lo =>
        if n < lo then some (f.label ++ " must be at least " ++ toString lo)
        else maxCheck
      | none => maxCheck
  else
    prev

/-- The confirmation rule of `validateForm`: when the field carries a truthy
`needsConfirmation` property and a truthy `confirmAgainst` target, a value
different from the target's stored value overwrites the field's error with
the custom message or `Passwords must match`; equal values leave the
previously recorded error standing. -/
def confirmCheck (data : List (String × String)) (f : FormField) (value : String)
    (prev : Option String) : Option String :=
  if f.needsConfirmation.getD false = true ∧ jsTruthyOpt f.confirmAgainst = true then
    let confirmValue := getValue data (f.confirmAgainst.getD "")
    if value ≠ confirmValue then
      some (jsOrStr f.customValidationMessage "Passwords must match")
    else
      prev
  else
    prev

/-- The per-field body of `validateForm`'s loop: the three rules run in
source order, each later rule overwriting `newErrors[field.name]` when it
fires. -/
def validateField (data : List (String × String)) (f : FormField) : Option String :=
  let value := getValue data f.name
  confirmCheck data f value (numberCheck f value (requiredCheck f value))

/-- One iteration of `validateForm`'s `fields.forEach`: record the field's
error, if any, under the field's name. -/
def validateStep (data : List (String × String)) (newErrors : List (String × String))
    (f : FormField) : List (String × String) :=
  match validateField data f with
  | some msg => recordSet newErrors f.name msg
  | none => newErrors

/-- `validateForm()`: the `newErrors` record accumulated over all fields. -/
def validateForm (fields : List FormField) (data : List (String × String)) :
    List (String × String) :=
  fields.foldl (validateStep data) []

/-- `handleSubmit`: invoke the submit callback with the form data exactly
when `validateForm` found no error (`Object.keys(newErrors).length === 0`). -/
def handleSubmit (fields : List FormField) (data : List (String × String)) :
    Option (List (String × String)) :=
  if validateForm fields data = [] then some data else none

/-- The confirmation field of the C4 counterexample: required, confirming
against `password`, no custom message. -/
def confirmPasswordField : FormField :=
  { name := "confirmPassword", label := "Confirm Password", type := InputType.password,
    placeholder := "", required := true, min := none, max := none, accept := none,
    needsConfirmation := some true, confirmAgainst := some "password",
    customValidationMessage := none }

/-- A numeric age field with bounds, for the C8 witness. -/
def ageField : FormField :=
  { name := "age", label := "Age", type := InputType.number,
    placeholder := "", required := false, min := some 18, max := some 99,
    accept := none, needsConfirmation := none, confirmAgainst := none,
    customValidationMessage := none }

/-- A plain required name field, for the C4 witness. -/
def nameField : FormField :=
  { name := "fullName", label := "Full Name", type := InputType.text,
    placeholder := "", required := true, min := none, max := none,
    accept := none, needsConfirmation := none, confirmAgainst := none,
    customValidationMessage := none }

end Form

end Persons

namespace Persons

namespace Api

/-- Claim C5: for every attempt k ≥ 1 the computed retry delay equals
min(baseDelay * backoffMultiplier^(k-1), maxDelay); with positive baseDelay and
backoffMultiplier ≥ 1 it is non-decreasing in k, and it never exceeds maxDelay. -/
theorem calculateRetryDelay_spec (cfg : RetryConfig) (k : ℕ) (hk : 1 ≤ k)
    (hb : 0 < cfg.baseDelay) (hm : 1 ≤ cfg.backoffMultiplier) :
    calculateRetryDelay k cfg
        = min (cfg.baseDelay * cfg.backoffMultiplier ^ ((k : ℤ) - 1)) cfg.maxDelay
      ∧ calculateRetryDelay k cfg ≤ calculateRetryDelay (k + 1) cfg
      ∧ calculateRetryDelay k cfg ≤ cfg.maxDelay := by
  refine ⟨rfl, ?_, min_le_right _ _⟩
  unfold calculateRetryDelay
  apply min_le_min _ (le_refl _)
  apply mul_le_mul_of_nonneg_left _ (le_of_lt hb)
  obtain ⟨j, rfl⟩ : ∃ j, k = j + 1 := ⟨k - 1, by omega⟩
  have h1 : ((j + 1 : ℕ) : ℤ) - 1 = (j : ℤ) := by push_cast; ring
  have h2 : ((j + 1 + 1 : ℕ) : ℤ) - 1 = ((j + 1 : ℕ) : ℤ) := by push_cast; ring
  rw [h1, h2, zpow_natCast, zpow_natCast]
  exact pow_le_pow_right₀ hm (Nat.le_succ j)

/-- Claim C5 witness: the specification instantiated at attempt 1 with the
default retry configuration. -/
theorem calculateRetryDelay_spec_witness :
    calculateRetryDelay 1 DEFAULT_RETRY_CONFIG
        = min (DEFAULT_RETRY_CONFIG.baseDelay
            * DEFAULT_RETRY_CONFIG.backoffMultiplier ^ ((1 : ℤ) - 1))
          DEFAULT_RETRY_CONFIG.maxDelay
      ∧ calculateRetryDelay 1 DEFAULT_RETRY_CONFIG
          ≤ calculateRetryDelay 2 DEFAULT_RETRY_CONFIG
      ∧ calculateRetryDelay 1 DEFAULT_RETRY_CONFIG ≤ DEFAULT_RETRY_CONFIG.maxDelay :=
  calculateRetryDelay_spec DEFAULT_RETRY_CONFIG 1 (le_refl 1)
    (by norm_num [DEFAULT_RETRY_CONFIG]) (by norm_num [DEFAULT_RETRY_CONFIG])

/-- The structured error thrown by `parseResponse` is never classified
retryable while the browser is online: the thrown literal has no `name` and
no `status` property, so every status test in `isRetryableError` sees
`undefined`. -/
theorem isRetryableError_api_false (e : ApiErrorResponse) :
    isRetryableError true (RequestError.api e) = false := by
  simp [isRetryableError, RequestError.nameProp, RequestError.statusProp]

/-- A non-2xx response makes `parseResponse` throw the structured error. -/
theorem parseResponse_error_of_not_ok (r : Response)
    (h : ¬ (200 ≤ r.status ∧ r.status ≤ 299)) :
    ∃ e, parseResponse r = Except.error (RequestError.api e) := by
  unfold parseResponse
  rw [if_neg h]
  exact ⟨_, rfl⟩

/-- Unfolding `retryRequest` when the attempt succeeds. -/
theorem retryRequest_ok (navOnline : Bool) (t : ℕ → Except RequestError Response)
    (c : ResolvedRequestConfig) (a : ℕ) (v : ApiResponse)
    (hout : attemptOutcome t a = Except.ok v) :
    retryRequest navOnline t c a = (Except.ok v, []) := by
  rw [retryRequest, hout]

/-- Unfolding `retryRequest` when the attempt fails and the retry guard is
off: the error is rethrown with no delay awaited.  (`mergeRetryConfig`
always yields `DEFAULT_RETRY_CONFIG`.) -/
theorem retryRequest_stop (navOnline : Bool) (t : ℕ → Except RequestError Response)
    (c : ResolvedRequestConfig) (a : ℕ) (e : RequestError)
    (hout : attemptOutcome t a = Except.error e)
    (hguard : ¬ (a < DEFAULT_RETRY_CONFIG.maxRetries
        ∧ isRetryableError navOnline e = true)) :
    retryRequest navOnline t c a = (Except.error e, []) := by
  rw [retryRequest, hout]
  exact dif_neg hguard

/-- Unfolding `retryRequest` when the attempt fails and the retry guard is
on: wait the computed delay and recurse at the next attempt. -/
theorem retryRequest_step (navOnline : Bool) (t : ℕ → Except RequestError Response)
    (c : ResolvedRequestConfig) (a : ℕ) (e : RequestError)
    (hout : attemptOutcome t a = Except.error e)
    (hguard : a < DEFAULT_RETRY_CONFIG.maxRetries
        ∧ isRetryableError navOnline e = true) :
    retryRequest navOnline t c a
      = ((retryRequest navOnline t c (a + 1)).1,
         calculateRetryDelay a DEFAULT_RETRY_CONFIG
           :: (retryRequest navOnline t c (a + 1)).2) := by
  rw [retryRequest, hout]
  exact dif_pos hguard

/-- Claim C6: with the client online, an HTTP 404 on the first attempt makes
the wrapper fail with the structured error parsed from that response, with no
retry attempt (the awaited-delay trace is empty), for every per-call
configuration. -/
theorem apiClient_404_no_retry (t : ℕ → Except RequestError Response) (r : Response)
    (opts : ClientOptions) (h1 : t 1 = Except.ok r) (h2 : r.status = 404) :
    ∃ e, parseResponse r = Except.error (RequestError.api e)
      ∧ apiClient true true t opts = (Except.error (RequestError.api e), []) := by
  have hnotok : ¬ (200 ≤ r.status ∧ r.status ≤ 299) := by omega
  obtain ⟨e, he⟩ := parseResponse_error_of_not_ok r hnotok
  have hout : attemptOutcome t 1 = Except.error (RequestError.api e) := by
    unfold attemptOutcome
    rw [h1]
    exact he
  refine ⟨e, he, ?_⟩
  unfold apiClient
  simp only [Bool.not_true, Bool.false_eq_true, if_false]
  by_cases hr : 0 < (resolveConfig opts).retries
  · rw [if_pos hr]
    exact retryRequest_stop true t (resolveConfig opts) 1 (RequestError.api e) hout
      (by simp [isRetryableError_api_false])
  · rw [if_neg hr, hout]

/-- Claim C6 witness: the 404 theorem instantiated with a concrete 404
transport and the empty per-call configuration. -/
theorem apiClient_404_no_retry_witness :
    ∃ e, parseResponse resp404 = Except.error (RequestError.api e)
      ∧ apiClient true true transport404
          { timeout := none, retries := none, retryDelay := none, headers := none }
          = (Except.error (RequestError.api e), []) :=
  apiClient_404_no_retry transport404 resp404
    { timeout := none, retries := none, retryDelay := none, headers := none }
    rfl rfl

/-- Claim C1 evaluated on the code: with the default configuration and the
client online, a transport that returns 503 twice and then succeeds makes the
call fail with the attempt-1 structured error after zero retries (empty delay
trace) — the thrown `ApiErrorResponse` carries no `status` property, so
`isRetryableError` never classifies an HTTP 5xx as retryable.  The claim's
promised outcome (success after exactly two retries) does not hold. -/
theorem apiClient_503_fails_without_retry :
    apiClient true true transport503
        { timeout := none, retries := none, retryDelay := none, headers := none }
      = (Except.error (RequestError.api
          { success := false, message := "Service Unavailable",
            errors := ["Service Unavailable"], errorCode := "HTTP_503" }), []) := by
  have hout : attemptOutcome transport503 1
      = Except.error (RequestError.api
          { success := false, message := "Service Unavailable",
            errors := ["Service Unavailable"], errorCode := "HTTP_503" }) := rfl
  unfold apiClient
  simp only [Bool.not_true, Bool.false_eq_true, if_false]
  rw [if_pos (by decide)]
  exact retryRequest_stop true transport503 _ 1 _ hout
    (by simp [isRetryableError_api_false])

/-- Claim C2 evaluated on the code: an `apiUpload` call with no per-call
header overrides still sends `Content-Type: application/json` — the empty
`headers: \x7b\x7d` override is spread over `createHeaders`'s default and
removes nothing — while the bearer token header is attached when a token is
present. -/
theorem apiUpload_sends_json_content_type :
    recordGet
        (apiUploadHeaders
          { timeout := none, retries := none, retryDelay := none, headers := none }
          none)
        "Content-Type" = some "application/json"
      ∧ recordGet
          (apiUploadHeaders
            { timeout := none, retries := none, retryDelay := none, headers := none }
            (some "tok"))
          "Authorization" = some "Bearer tok" := by
  decide

/-- All `retries > 0` per-call configurations drive the retry loop
identically: the merged retry configuration ignores the per-call `retries`
and `retryDelay` keys entirely. -/
theorem retryRequest_config_irrelevant (navOnline : Bool)
    (t : ℕ → Except RequestError Response) :
    ∀ (k attempt : ℕ), DEFAULT_RETRY_CONFIG.maxRetries - attempt ≤ k →
      ∀ (c1 c2 : ResolvedRequestConfig),
        retryRequest navOnline t c1 attempt = retryRequest navOnline t c2 attempt := by
  intro k
  induction k with
  | zero =>
    intro a ha c1 c2
    cases htry : attemptOutcome t a with
    | ok v => rw [retryRequest_ok navOnline t c1 a v htry,
                  retryRequest_ok navOnline t c2 a v htry]
    | error e =>
      have hguard : ¬ (a < DEFAULT_RETRY_CONFIG.maxRetries
          ∧ isRetryableError navOnline e = true) := by
        intro hcon
        have hmx : DEFAULT_RETRY_CONFIG.maxRetries = 3 := rfl
        omega
      rw [retryRequest_stop navOnline t c1 a e htry hguard,
          retryRequest_stop navOnline t c2 a e htry hguard]
  | succ k ih =>
    intro a ha c1 c2
    cases htry : attemptOutcome t a with
    | ok v => rw [retryRequest_ok navOnline t c1 a v htry,
                  retryRequest_ok navOnline t c2 a v htry]
    | error e =>
      by_cases hguard : a < DEFAULT_RETRY_CONFIG.maxRetries
          ∧ isRetryableError navOnline e = true
      · rw [retryRequest_step navOnline t c1 a e htry hguard,
            retryRequest_step navOnline t c2 a e htry hguard,
            ih (a + 1) (by omega) c1 c2]
      · rw [retryRequest_stop navOnline t c1 a e htry hguard,
            retryRequest_stop navOnline t c2 a e htry hguard]

/-- Claim C10: two per-call configurations that both enable retries and agree
on everything except `retries`/`retryDelay` produce exactly the same call
behaviour (same outcome, same delay trace), because the merged retry
configuration is always the default: attempt bound `maxRetries = 3` and
delays from `baseDelay = 1000`. -/
theorem apiClient_per_call_retry_config_ignored (statusOnline navOnline : Bool)
    (t : ℕ → Except RequestError Response) (o1 o2 : ClientOptions)
    (_htimeout : o1.timeout = o2.timeout) (_hheaders : o1.headers = o2.headers)
    (h1 : 0 < (resolveConfig o1).retries) (h2 : 0 < (resolveConfig o2).retries) :
    apiClient statusOnline navOnline t o1 = apiClient statusOnline navOnline t o2
      ∧ mergeRetryConfig (resolveConfig o1) = DEFAULT_RETRY_CONFIG
      ∧ DEFAULT_RETRY_CONFIG.maxRetries = 3
      ∧ DEFAULT_RETRY_CONFIG.baseDelay = 1000 := by
  refine ⟨?_, rfl, rfl, rfl⟩
  unfold apiClient
  cases statusOnline with
  | false => rfl
  | true =>
    simp only [Bool.not_true, Bool.false_eq_true, if_false]
    rw [if_pos h1, if_pos h2]
    exact retryRequest_config_irrelevant navOnline t
      DEFAULT_RETRY_CONFIG.maxRetries 1 (by omega) (resolveConfig o1) (resolveConfig o2)

/-- Claim C10 witness: two concrete configurations, one with
`retries = 5, retryDelay = 7`, the other with `retries = 9, retryDelay = 11`,
behave identically against a concrete 404 transport. -/
theorem apiClient_per_call_retry_config_ignored_witness :
    apiClient true true transport404
        { timeout := none, retries := some 5, retryDelay := some 7, headers := none }
      = apiClient true true transport404
        { timeout := none, retries := some 9, retryDelay := some 11, headers := none }
      ∧ mergeRetryConfig (resolveConfig
          { timeout := none, retries := some 5, retryDelay := some 7, headers := none })
        = DEFAULT_RETRY_CONFIG
      ∧ DEFAULT_RETRY_CONFIG.maxRetries = 3
      ∧ DEFAULT_RETRY_CONFIG.baseDelay = 1000 :=
  apiClient_per_call_retry_config_ignored true true transport404
    { timeout := none, retries := some 5, retryDelay := some 7, headers := none }
    { timeout := none, retries := some 9, retryDelay := some 11, headers := none }
    rfl rfl (by decide) (by decide)

end Api

namespace Auth

/-- Claim C3: after `logout`, the current user is `none` and the loading flag
is cleared, whether the underlying logout API call resolves or rejects. -/
theorem logout_always_clears_user (s : AuthState) (apiRejects : Bool) :
    (logout s apiRejects).user = none ∧ (logout s apiRejects).isLoading = false := by
  cases apiRejects <;> simp [logout]

/-- Claim C7: for `login` and `register` alike — a resolved call with a
truthy `success` body stores the returned user, clears the error and returns
`true`; a rejected call, a resolved call with a transport error string, or a
missing body clears the user, stores an error message and returns `false`;
a `success:false` body clears the user, stores the comma-joined `errors` list
when non-empty (else the body's message or the generic message) and returns
`false`. -/
theorem login_register_outcomes (s : AuthState) (d : AuthResponse)
    (err : Option String) (dataOpt : Option AuthResponse) :
    (jsTruthyOpt err = false → d.success = true →
        ((login s (ApiCallOutcome.resolved (some d) err)).2 = true
          ∧ (login s (ApiCallOutcome.resolved (some d) err)).1.error = none
          ∧ (∀ u, d.user = some u →
              (login s (ApiCallOutcome.resolved (some d) err)).1.user = some u)
          ∧ (register s (ApiCallOutcome.resolved (some d) err)).2 = true
          ∧ (register s (ApiCallOutcome.resolved (some d) err)).1.error = none
          ∧ (∀ u, d.user = some u →
              (register s (ApiCallOutcome.resolved (some d) err)).1.user = some u)))
  ∧ ((login s ApiCallOutcome.rejected).1.user = none
      ∧ (login s ApiCallOutcome.rejected).1.error = some "Network error occurred"
      ∧ (login s ApiCallOutcome.rejected).2 = false
      ∧ (register s ApiCallOutcome.rejected).1.user = none
      ∧ (register s ApiCallOutcome.rejected).1.error = some "Network error occurred"
      ∧ (register s ApiCallOutcome.rejected).2 = false)
  ∧ (jsTruthyOpt err = true ∨ dataOpt = none →
        ((login s (ApiCallOutcome.resolved dataOpt err)).1.user = none
          ∧ (login s (ApiCallOutcome.resolved dataOpt err)).1.error
              = some (jsOrStr err "Login failed")
          ∧ (login s (ApiCallOutcome.resolved dataOpt err)).2 = false
          ∧ (register s (ApiCallOutcome.resolved dataOpt err)).1.user = none
          ∧ (register s (ApiCallOutcome.resolved dataOpt err)).1.error
              = some (jsOrStr err "Registration failed")
          ∧ (register s (ApiCallOutcome.resolved dataOpt err)).2 = false))
  ∧ (jsTruthyOpt err = false → d.success = false →
        ((login s (ApiCallOutcome.resolved (some d) err)).1.user = none
          ∧ (login s (ApiCallOutcome.resolved (some d) err)).2 = false
          ∧ (login s (ApiCallOutcome.resolved (some d) err)).1.error
              = some (if jsErrorsNonEmpty d.errors = true
                  then String.intercalate ", " (d.errors.getD [])
                  else jsOrStr d.message "Login failed")
          ∧ (register s (ApiCallOutcome.resolved (some d) err)).1.user = none
          ∧ (register s (ApiCallOutcome.resolved (some d) err)).2 = false
          ∧ (register s (ApiCallOutcome.resolved (some d) err)).1.error
              = some (if jsErrorsNonEmpty d.errors = true
                  then String.intercalate ", " (d.errors.getD [])
                  else jsOrStr d.message "Registration failed"))) := by
  refine ⟨?_, ?_, ?_, ?_⟩
  · intro herr hsucc
    have hl : login s (ApiCallOutcome.resolved (some d) err)
        = (handleAuthSuccess { s with isLoading := true, error := none } d, true) := by
      simp [login, herr, hsucc]
    have hr : register s (ApiCallOutcome.resolved (some d) err)
        = (handleAuthSuccess { s with isLoading := true, error := none } d, true) := by
      simp [register, herr, hsucc]
    rw [hl, hr]
    refine ⟨rfl, ?_, ?_, rfl, ?_, ?_⟩
    · cases hu : d.user <;> simp [handleAuthSuccess, hu]
    · intro u hu
      simp [handleAuthSuccess, hu]
    · cases hu : d.user <;> simp [handleAuthSuccess, hu]
    · intro u hu
      simp [handleAuthSuccess, hu]
  · simp [login, register, handleAuthFailure]
  · intro hcase
    cases hcase with
    | inl herr =>
      cases dataOpt with
      | none => simp [login, register, handleAuthFailure]
      | some d2 => simp [login, register, handleAuthFailure, herr]
    | inr hnone =>
      subst hnone
      simp [login, register, handleAuthFailure]
  · intro herr hfail
    by_cases he : jsErrorsNonEmpty d.errors = true <;>
      simp [login, register, handleAuthFailure, herr, hfail, he]

/-- Claim C7 witness: the outcome theorem instantiated at a concrete state
and a concrete successful response carrying a user. -/
theorem login_register_outcomes_witness :
    (login sampleState (ApiCallOutcome.resolved (some sampleSuccessResponse) none)).2
        = true
      ∧ (login sampleState
          (ApiCallOutcome.resolved (some sampleSuccessResponse) none)).1.user
        = some sampleUser
      ∧ (register sampleState ApiCallOutcome.rejected).1.user = none := by
  have h := login_register_outcomes sampleState sampleSuccessResponse none none
  exact ⟨(h.1 rfl rfl).1, (h.1 rfl rfl).2.2.1 sampleUser rfl, h.2.1.2.2.2.1⟩

end Auth

namespace Form

/-- `recordSet` never empties a record. -/
theorem recordSet_ne_nil (m : List (String × String)) (k v : String) :
    recordSet m k v ≠ [] := by
  unfold recordSet
  by_cases h : m.any (fun p => p.1 = k) = true
  · rw [if_pos h]
    intro hcon
    rw [List.map_eq_nil_iff] at hcon
    subst hcon
    simp at h
  · rw [if_neg h]
    simp

/-- A loop iteration on a field with an error leaves a non-empty record. -/
theorem validateStep_some_ne_nil (data : List (String × String))
    (acc : List (String × String)) (f : FormField) (m : String)
    (hf : validateField data f = some m) : validateStep data acc f ≠ [] := by
  unfold validateStep
  rw [hf]
  exact recordSet_ne_nil acc f.name m

/-- A loop iteration never empties a non-empty error record. -/
theorem validateStep_ne_nil (data : List (String × String))
    (acc : List (String × String)) (f : FormField) (h : acc ≠ []) :
    validateStep data acc f ≠ [] := by
  unfold validateStep
  cases h2 : validateField data f with
  | none => exact h
  | some m => exact recordSet_ne_nil acc f.name m

/-- The whole loop never empties a non-empty error record. -/
theorem foldl_validateStep_ne_nil (data : List (String × String))
    (fields : List FormField) :
    ∀ acc, acc ≠ [] → fields.foldl (validateStep data) acc ≠ [] := by
  induction fields with
  | nil =>
    intro acc h
    exact h
  | cons g rest ih =>
    intro acc h
    rw [List.foldl_cons]
    exact ih _ (validateStep_ne_nil data acc g h)

/-- If some listed field has a validation error, `validateForm` is
non-empty. -/
theorem validateForm_mem_some_ne_nil (data : List (String × String))
    (fields : List FormField) (f : FormField) (hmem : f ∈ fields) (m : String)
    (hf : validateField data f = some m) : validateForm fields data ≠ [] := by
  have haux : ∀ (l : List FormField), f ∈ l →
      ∀ acc, l.foldl (validateStep data) acc ≠ [] := by
    intro l
    induction l with
    | nil =>
      intro hm
      cases hm
    | cons g rest ih =>
      intro hm acc
      rw [List.foldl_cons]
      rcases List.mem_cons.mp hm with heq | hrest
      · subst heq
        exact foldl_validateStep_ne_nil data rest _
          (validateStep_some_ne_nil data acc f m hf)
      · exact ih hrest _
  exact haux fields hmem []

/-- The confirmation rule maps a present error to a (possibly different)
present error: it can overwrite but never clear. -/
theorem confirmCheck_some (data : List (String × String)) (f : FormField)
    (v m : String) : ∃ m2, confirmCheck data f v (some m) = some m2 := by
  simp only [confirmCheck]
  by_cases h1 : f.needsConfirmation.getD false = true
      ∧ jsTruthyOpt f.confirmAgainst = true
  · rw [if_pos h1]
    by_cases h2 : v ≠ getValue data (f.confirmAgainst.getD "")
    · rw [if_pos h2]
      exact ⟨_, rfl⟩
    · rw [if_neg h2]
      exact ⟨m, rfl⟩
  · rw [if_neg h1]
    exact ⟨m, rfl⟩

/-- A string whose JavaScript trim is empty is all whitespace. -/
theorem dropWhile_ws_of_jsTrim_empty (s : String) (h : jsTrim s = "") :
    s.toList.dropWhile Char.isWhitespace = [] := by
  have hdata : (((s.toList.dropWhile Char.isWhitespace).reverse.dropWhile
      Char.isWhitespace).reverse) = [] := congrArg String.data h
  rw [List.reverse_eq_nil_iff, List.dropWhile_eq_nil_iff] at hdata
  rw [List.dropWhile_eq_nil_iff]
  intro x hx
  have hsplit := List.takeWhile_append_dropWhile Char.isWhitespace s.toList
  rw [← hsplit] at hx
  rcases List.mem_append.mp hx with htk | hdr
  · exact List.mem_takeWhile_imp htk
  · exact hdata x (List.mem_reverse.mpr hdr)

/-- `parseInt` of a blank (all-whitespace or empty) string is `NaN`. -/
theorem jsParseInt_of_jsTrim_empty (s : String) (h : jsTrim s = "") :
    jsParseInt s = none := by
  have hd := dropWhile_ws_of_jsTrim_empty s h
  simp only [jsParseInt, hd]
  rfl

/-- A string is a substring of itself followed by anything. -/
theorem isSubstring_append_right (a b : String) : isSubstring a (a ++ b) = true := by
  unfold isSubstring
  rw [List.any_eq_true]
  refine ⟨0, List.mem_range.mpr (by omega), ?_⟩
  simp only [List.drop_zero]
  rw [show (a ++ b).toList = a.toList ++ b.toList from String.data_append a b,
    List.isPrefixOf_iff_prefix]
  exact List.prefix_append _ _

/-- Claim C9: for a confirmation field (truthy `needsConfirmation` and
`confirmAgainst`), a stored value different from the target's stored value
makes `validateForm`'s per-field result the confirmation error regardless of
the other rules; equal values make the confirmation rule keep whatever the
earlier rules produced (it records no error of its own). -/
theorem confirmation_field_validation (data : List (String × String))
    (f : FormField) (hconf : f.needsConfirmation.getD false = true)
    (htgt : jsTruthyOpt f.confirmAgainst = true) :
    (getValue data f.name ≠ getValue data (f.confirmAgainst.getD "") →
        validateField data f
          = some (jsOrStr f.customValidationMessage "Passwords must match"))
      ∧ (getValue data f.name = getValue data (f.confirmAgainst.getD "") →
          ∀ prev, confirmCheck data f (getValue data f.name) prev = prev) := by
  constructor
  · intro hne
    simp only [validateField, confirmCheck]
    rw [if_pos ⟨hconf, htgt⟩, if_pos hne]
  · intro heq prev
    simp only [confirmCheck]
    rw [if_pos ⟨hconf, htgt⟩, if_neg (fun hcon => hcon heq)]

/-- Claim C9 witness: the confirmation theorem at the concrete
`confirmPassword` field with a mismatching target value. -/
theorem confirmation_field_validation_witness :
    validateField [("password", "abc")] confirmPasswordField
      = some (jsOrStr confirmPasswordField.customValidationMessage
          "Passwords must match") :=
  (confirmation_field_validation [("password", "abc")] confirmPasswordField
    rfl rfl).1 (by decide)

/-- Claim C8: for a number-typed field with bounds `[lo, hi]` and a
non-empty stored value — an unparsable value, a value below `lo`, or a value
above `hi` each make the numeric rule record the corresponding error
(whatever the earlier rules said), and `validateForm`'s per-field result is
an error; a parsed value within the bounds makes the numeric rule record
nothing (it passes the earlier rules' result through unchanged). -/
theorem numeric_field_validation (data : List (String × String)) (f : FormField)
    (lo hi : ℤ) (v : String) (htype : f.type = InputType.number)
    (hmin : f.min = some lo) (hmax : f.max = some hi)
    (hv : getValue data f.name = v) (hne : v ≠ "") :
    (jsParseInt v = none →
        (∀ prev, numberCheck f v prev = some (f.label ++ " must be a valid number"))
        ∧ ∃ m, validateField data f = some m)
      ∧ (∀ n, jsParseInt v = some n → n < lo →
          (∀ prev, numberCheck f v prev
              = some (f.label ++ " must be at least " ++ toString lo))
          ∧ ∃ m, validateField data f = some m)
      ∧ (∀ n, jsParseInt v = some n → lo ≤ n → hi < n →
          (∀ prev, numberCheck f v prev
              = some (f.label ++ " must be at most " ++ toString hi))
          ∧ ∃ m, validateField data f = some m)
      ∧ (∀ n, jsParseInt v = some n → lo ≤ n → n ≤ hi →
          ∀ prev, numberCheck f v prev = prev) := by
  have hvf : ∀ msg, (∀ prev, numberCheck f v prev = some msg) →
      ∃ m, validateField data f = some m := by
    intro msg hnum
    simp only [validateField, hv]
    rw [hnum (requiredCheck f v)]
    exact confirmCheck_some data f v msg
  refine ⟨?_, ?_, ?_, ?_⟩
  · intro hparse
    have hnum : ∀ prev, numberCheck f v prev
        = some (f.label ++ " must be a valid number") := by
      intro prev
      simp [numberCheck, htype, hne, hparse]
    exact ⟨hnum, hvf _ hnum⟩
  · intro n hparse hlt
    have hnum : ∀ prev, numberCheck f v prev
        = some (f.label ++ " must be at least " ++ toString lo) := by
      intro prev
      simp [numberCheck, htype, hne, hparse, hmin, hmax, hlt]
    exact ⟨hnum, hvf _ hnum⟩
  · intro n hparse hlo hhi
    have hnum : ∀ prev, numberCheck f v prev
        = some (f.label ++ " must be at most " ++ toString hi) := by
      intro prev
      have h1 : ¬ (n < lo) := not_lt.mpr hlo
      simp [numberCheck, htype, hne, hparse, hmin, hmax, h1, hhi]
    exact ⟨hnum, hvf _ hnum⟩
  · intro n hparse hlo hhi prev
    have h1 : ¬ (n < lo) := not_lt.mpr hlo
    have h2 : ¬ (hi < n) := not_lt.mpr hhi
    simp [numberCheck, htype, hne, hparse, hmin, hmax, h1, h2]

/-- Claim C8 witness: the numeric theorem at the concrete `age` field with
bounds [18, 99] and the stored value `17`. -/
theorem numeric_field_validation_witness :
    numberCheck ageField "17" none
        = some (ageField.label ++ " must be at least " ++ toString (18 : ℤ))
      ∧ ∃ m, validateField [("age", "17")] ageField = some m := by
  have h := numeric_field_validation [("age", "17")] ageField 18 99 "17"
    rfl rfl rfl (by decide) (by decide)
  have h2 := h.2.1 17 (by decide) (by decide)
  exact ⟨h2.1 none, h2.2⟩

/-- Claim C4 counterexample: a required confirmation field left blank while
its target holds a value gets its `is required` error overwritten by
`Passwords must match`, which does not contain the field's label
`Confirm Password` — so the recorded message does not name the field. -/
theorem required_blank_label_counterexample :
    confirmPasswordField.required = true
      ∧ jsTrim (getValue [("password", "abc")] confirmPasswordField.name) = ""
      ∧ validateForm [confirmPasswordField] [("password", "abc")]
          = [("confirmPassword", "Passwords must match")]
      ∧ isSubstring confirmPasswordField.label "Passwords must match" = false := by
  decide

/-- Claim C4 as amended: a required field whose stored value is blank always
gets an error recorded and always blocks the submit callback; the recorded
message contains the field's label except when the field is also a
confirmation field whose value mismatches its target, in which case the
confirmation message overwrites it. -/
theorem required_blank_blocks_submit (fields : List FormField)
    (data : List (String × String)) (f : FormField) (hmem : f ∈ fields)
    (hreq : f.required = true) (hblank : jsTrim (getValue data f.name) = "") :
    (∃ m, validateField data f = some m)
      ∧ handleSubmit fields data = none
      ∧ ((f.needsConfirmation.getD false = true ∧ jsTruthyOpt f.confirmAgainst = true
            ∧ getValue data f.name ≠ getValue data (f.confirmAgainst.getD "")) →
          validateField data f
            = some (jsOrStr f.customValidationMessage "Passwords must match"))
      ∧ (¬ (f.needsConfirmation.getD false = true
            ∧ jsTruthyOpt f.confirmAgainst = true
            ∧ getValue data f.name ≠ getValue data (f.confirmAgainst.getD "")) →
          ∃ m, validateField data f = some m ∧ isSubstring f.label m = true) := by
  have hreqc : requiredCheck f (getValue data f.name)
      = some (f.label ++ " is required") := by
    simp only [requiredCheck]
    rw [if_pos ⟨hreq, hblank⟩]
  have hnum : ∃ suf, numberCheck f (getValue data f.name)
      (requiredCheck f (getValue data f.name)) = some (f.label ++ suf) := by
    by_cases htype : f.type = InputType.number ∧ getValue data f.name ≠ ""
    · have hparse := jsParseInt_of_jsTrim_empty _ hblank
      refine ⟨" must be a valid number", ?_⟩
      simp [numberCheck, htype, hparse]
    · refine ⟨" is required", ?_⟩
      simp only [numberCheck]
      rw [if_neg htype, hreqc]
  obtain ⟨suf, hnumr⟩ := hnum
  have hvf : ∃ m, validateField data f = some m := by
    simp only [validateField]
    rw [hnumr]
    exact confirmCheck_some data f _ _
  obtain ⟨m0, hm0⟩ := hvf
  have hform : validateForm fields data ≠ [] :=
    validateForm_mem_some_ne_nil data fields f hmem m0 hm0
  refine ⟨⟨m0, hm0⟩, ?_, ?_, ?_⟩
  · simp only [handleSubmit]
    rw [if_neg hform]
  · intro hover
    simp only [validateField, confirmCheck]
    rw [if_pos ⟨hover.1, hover.2.1⟩, if_pos hover.2.2]
  · intro hnot
    refine ⟨f.label ++ suf, ?_, isSubstring_append_right _ _⟩
    simp only [validateField, confirmCheck]
    by_cases hg : f.needsConfirmation.getD false = true
        ∧ jsTruthyOpt f.confirmAgainst = true
    · rw [if_pos hg]
      have heq : ¬ (getValue data f.name ≠ getValue data (f.confirmAgainst.getD "")) := by
        intro hne2
        exact hnot ⟨hg.1, hg.2, hne2⟩
      rw [if_neg heq, hnumr]
    · rw [if_neg hg, hnumr]

/-- Claim C4 witness (amended form): a plain required text field with no
stored value gets an error and blocks the submit callback. -/
theorem required_blank_blocks_submit_witness :
    (∃ m, validateField [] nameField = some m)
      ∧ handleSubmit [nameField] [] = none := by
  have h := required_blank_blocks_submit [nameField] [] nameField
    (List.mem_singleton.mpr rfl) rfl (by decide)
  exact ⟨h.1, h.2.1⟩

end Form

end Persons
